import Mathlib

/- Shallow embedding of the hyperglass query-construction engine
   (src/hyperglass/command/construct.py).

   Pure Python string/stdlib operations (str.split, str.format, json.dumps,
   ipaddress.ip_network) are modelled as executable Lean functions over
   `List Char` / `String`; Python exceptions become `Except QueryError`.
   Each `QueryError` constructor tags the source site at which the Python
   code raises (ValueError from `ipaddress.ip_network`, AttributeError from
   the various `getattr`/`attrgetter` calls), using the error names of the
   specification.  -/

set_option maxRecDepth 4096

/- Split a character list on every occurrence of a single separator
   character, like Python's `str.split(sep)`: "a:b" gives ["a","b"],
   ":" gives ["",""], "" gives [""]. -/
def splitC (sep : Char) : List Char → List (List Char)
  | [] => [[]]
  | c :: rest =>
    if c = sep then [] :: splitC sep rest
    else
      match splitC sep rest with
      | seg :: segs => (c :: seg) :: segs
      | [] => [[c]]

/- Split a character list on every non-overlapping occurrence of the
   two-character separator "::", like Python's `str.split("::")`. -/
def splitDC : List Char → List (List Char)
  | ':' :: ':' :: rest => [] :: splitDC rest
  | c :: rest =>
    match splitDC rest with
    | seg :: segs => (c :: seg) :: segs
    | [] => [[c]]
  | [] => [[]]

/- Decimal digit string to Nat; fails on the empty string and on any
   non-digit character. -/
def decToNat (cs : List Char) : Option Nat :=
  if cs = [] then Option.none
  else if cs.all Char.isDigit then
    some (cs.foldl (fun n c => n * 10 + (c.toNat - 48)) 0)
  else Option.none

/- One dotted-quad octet: decimal, at most 3 digits, no leading zero
   (Python's ipaddress rejects ambiguous leading-zero octets), value at
   most 255. -/
def parseIPv4Octet (cs : List Char) : Option Nat :=
  match decToNat cs with
  | Option.none => Option.none
  | some n =>
    match cs with
    | '0' :: _ :: _ => Option.none
    | _ => if cs.length ≤ 3 ∧ n ≤ 255 then some n else Option.none

/- Dotted-quad IPv4 address text to its 32-bit value. -/
def parseIPv4Value (cs : List Char) : Option Nat :=
  match splitC '.' cs with
  | [a, b, c, d] =>
    match parseIPv4Octet a, parseIPv4Octet b, parseIPv4Octet c, parseIPv4Octet d with
    | some x, some y, some z, some w => some (((x * 256 + y) * 256 + z) * 256 + w)
    | _, _, _, _ => Option.none
  | _ => Option.none

/- Prefix length: decimal without leading zeros. -/
def parsePrefixLen (cs : List Char) : Option Nat :=
  match cs with
  | '0' :: _ :: _ => Option.none
  | _ => decToNat cs

/- "addr" or "addr/plen" IPv4 network text, strict (host bits must be
   zero under the mask), as `ipaddress.IPv4Network(s)` accepts it; the
   netmask/hostmask prefix notations and integer inputs accepted by
   Python are outside the model. Returns the 32-bit address value. -/
def parseIPv4Network (cs : List Char) : Option Nat :=
  match splitC '/' cs with
  | [addr] => parseIPv4Value addr
  | [addr, plen] =>
    match parseIPv4Value addr, parsePrefixLen plen with
    | some v, some p =>
      if p ≤ 32 ∧ v % 2 ^ (32 - p) = 0 then some v else Option.none
    | _, _ => Option.none
  | _ => Option.none

/- Hexadecimal digit value. -/
def hexVal (c : Char) : Option Nat :=
  if 48 ≤ c.toNat ∧ c.toNat ≤ 57 then some (c.toNat - 48)
  else if 97 ≤ c.toNat ∧ c.toNat ≤ 102 then some (c.toNat - 87)
  else if 65 ≤ c.toNat ∧ c.toNat ≤ 70 then some (c.toNat - 55)
  else Option.none

/- One IPv6 group: one to four hex digits. -/
def parseHexGroup (cs : List Char) : Option Nat :=
  if cs.length = 0 ∨ cs.length > 4 then Option.none
  else cs.foldl
    (fun acc c =>
      match acc, hexVal c with
      | some a, some h => some (a * 16 + h)
      | _, _ => Option.none)
    (some 0)

/- A colon-separated run of IPv6 groups; an embedded dotted-quad IPv4
   address is admitted only as the final part (it contributes two
   16-bit groups), as in RFC 4291 / Python's IPv6 text parser. -/
def parseIPv6Parts (parts : List (List Char)) (allowQuadLast : Bool) : Option (List Nat) :=
  match parts with
  | [] => some []
  | [last] =>
    match parseHexGroup last with
    | some g => some [g]
    | Option.none =>
      if allowQuadLast then
        match parseIPv4Value last with
        | some v => some [v / 65536, v % 65536]
        | Option.none => Option.none
      else Option.none
  | p :: rest =>
    match parseHexGroup p, parseIPv6Parts rest allowQuadLast with
    | some g, some gs => some (g :: gs)
    | _, _ => Option.none

/- IPv6 address text to its list of eight 16-bit groups, handling a
   single "::" zero-compression and an optional trailing embedded IPv4
   quad; zone identifiers are rejected (as `IPv6Network` does). -/
def parseIPv6Value (cs : List Char) : Option (List Nat) :=
  match splitDC cs with
  | [whole] =>
    match parseIPv6Parts (splitC ':' whole) true with
    | some gs => if gs.length = 8 then some gs else Option.none
    | Option.none => Option.none
  | [l, r] =>
    match parseIPv6Parts (if l = [] then [] else splitC ':' l) false,
          parseIPv6Parts (if r = [] then [] else splitC ':' r) true with
    | some lg, some rg =>
      if lg.length + rg.length ≤ 7 then
        some (lg ++ List.replicate (8 - lg.length - rg.length) 0 ++ rg)
      else Option.none
    | _, _ => Option.none
  | _ => Option.none

def ipv6GroupsToNat (gs : List Nat) : Nat :=
  gs.foldl (fun a g => a * 65536 + g) 0

/- "addr" or "addr/plen" IPv6 network text, strict, as
   `ipaddress.IPv6Network(s)` accepts it. Returns the eight groups. -/
def parseIPv6Network (cs : List Char) : Option (List Nat) :=
  match splitC '/' cs with
  | [addr] => parseIPv6Value addr
  | [addr, plen] =>
    match parseIPv6Value addr, parsePrefixLen plen with
    | some gs, some p =>
      if p ≤ 128 ∧ ipv6GroupsToNat gs % 2 ^ (128 - p) = 0 then some gs else Option.none
    | _, _ => Option.none
  | _ => Option.none

/- Models `ipaddress.ip_network(s).version`: `some 4` / `some 6` when the
   string parses as an IPv4 / IPv6 address or network (IPv4 is tried
   first, exactly as `ip_network` does), `none` when the string is not a
   parseable IP address/network (the ValueError case). -/
def ip_network_version (s : String) : Option Nat :=
  match parseIPv4Network s.toList with
  | some _ => some 4
  | Option.none =>
    match parseIPv6Network s.toList with
    | some _ => some 6
    | Option.none => Option.none

/- A stored IP address value, as the `ipaddress` objects held in device
   attributes (`src_addr_ipv4` / `src_addr_ipv6`). -/
inductive IPValue where
  | v4 (a b c d : Nat)
  | v6 (groups : List Nat)
deriving DecidableEq

def hexDigitChar (n : Nat) : Char :=
  if n < 10 then Char.ofNat (48 + n) else Char.ofNat (87 + n)

/- A 16-bit group as four lowercase hex digits. -/
def hex4 (n : Nat) : String :=
  String.mk [hexDigitChar (n / 4096 % 16), hexDigitChar (n / 256 % 16),
             hexDigitChar (n / 16 % 16), hexDigitChar (n % 16)]

/- Models the `.exploded` property of Python `ipaddress` address objects:
   the fully expanded canonical text form (dotted quad for IPv4; all
   eight groups, zero padded, for IPv6). -/
def IPValue.exploded : IPValue → String
  | .v4 a b c d => toString a ++ "." ++ toString b ++ "." ++ toString c ++ "." ++ toString d
  | .v6 gs => String.intercalate ":" (gs.map hex4)

/- JSON string escaping as `json.dumps` performs it on the payload
   values (all payload values here are strings). -/
def json_escape_char (c : Char) : String :=
  if c = '"' then "\\\""
  else if c = '\\' then "\\\\"
  else if c = '\n' then "\\n"
  else if c = '\r' then "\\r"
  else if c = '\t' then "\\t"
  else if c = '\x08' then "\\b"
  else if c = '\x0c' then "\\f"
  else if c.toNat < 32 then "\\u00" ++ String.mk [hexDigitChar (c.toNat / 16), hexDigitChar (c.toNat % 16)]
  else String.mk [c]

def json_escape (s : String) : String :=
  String.join (s.toList.map json_escape_char)

/- Models `json.dumps` of the five-key payload dict built by every
   builder's rest branch: Python 3.7+ `json.dumps` preserves the dict's
   insertion order, so the keys appear exactly in the source order
   query_type, afi, vrf, source, target, with the default ", " / ": "
   separators, and every value is a (JSON-escaped) string. -/
def json_dumps_payload (query_type afi vrf source target : String) : String :=
  "\x7b\"query_type\": \"" ++ json_escape query_type ++
  "\", \"afi\": \"" ++ json_escape afi ++
  "\", \"vrf\": \"" ++ json_escape vrf ++
  "\", \"source\": \"" ++ json_escape source ++
  "\", \"target\": \"" ++ json_escape target ++ "\"\x7d"

/- Models Python `str.format` with keyword arguments, restricted to the
   plain `\x7bname\x7d` placeholders (plus `\x7b\x7b` / `\x7d\x7d`
   escapes) that the catalog's command templates use; conversion and
   format-spec suffixes are outside the model. A placeholder naming a
   keyword that was not supplied is a failure (Python raises KeyError),
   as are unbalanced braces (ValueError). -/
def formatFuel (fields : List (String × String)) : Nat → List Char → Option String
  | 0, _ => Option.none
  | _ + 1, [] => some ""
  | fuel + 1, '{' :: '{' :: rest =>
      (formatFuel fields fuel rest).map (fun t => "\x7b" ++ t)
  | fuel + 1, '{' :: rest =>
      match rest.dropWhile (fun c => c ≠ '}') with
      | '}' :: rest2 =>
        match fields.lookup (String.mk (rest.takeWhile (fun c => c ≠ '}'))) with
        | some v => (formatFuel fields fuel rest2).map (fun t => v ++ t)
        | Option.none => Option.none
      | _ => Option.none
  | fuel + 1, '}' :: '}' :: rest =>
      (formatFuel fields fuel rest).map (fun t => "\x7d" ++ t)
  | _ + 1, '}' :: _ => Option.none
  | fuel + 1, c :: rest =>
      (formatFuel fields fuel rest).map (fun t => String.mk [c] ++ t)

def formatTemplate (tmpl : String) (fields : List (String × String)) : Option String :=
  formatFuel fields (tmpl.toList.length + 1) tmpl.toList

/- AddressFamily record held per (VRF, IP version): `afi_name`,
   `vrf_name`, `source_address` attributes read by the builders. -/
structure AFIRecord where
  afi_name : String
  vrf_name : String
  source_address : String
deriving DecidableEq

/- A VRF object: per address family it may or may not carry an
   AddressFamily sub-record attribute (`ipv4` / `ipv6`). -/
structure VRFRecord where
  ipv4 : Option AFIRecord
  ipv6 : Option AFIRecord
deriving DecidableEq

/- `getattr(vrf, query_protocol)`: a missing attribute is Python's
   AttributeError. -/
def VRFRecord.getAFI (vrf : VRFRecord) (protocol : String) : Option AFIRecord :=
  if protocol = "ipv4" then vrf.ipv4
  else if protocol = "ipv6" then vrf.ipv6
  else Option.none

/- The device object: `commands` is the device's declared command-set
   (platform) name keying the catalog's first level, `vrfs` the
   VRF-name-keyed table behind `device.vrfs`, and `src_addr_ipv4` /
   `src_addr_ipv6` the per-family source-address attributes read by
   `get_src`. -/
structure Device where
  commands : String
  vrfs : List (String × VRFRecord)
  src_addr_ipv4 : Option IPValue
  src_addr_ipv6 : Option IPValue
deriving DecidableEq

/- `getattr(self.device.vrfs, self.query_vrf)`. -/
def Device.getVRF (d : Device) (name : String) : Option VRFRecord :=
  d.vrfs.lookup name

/- `getattr(device, "src_addr_" ++ afi)`: the device only carries the
   ipv4/ipv6 source-address attributes. -/
def Device.srcAddrAttr (d : Device) (afi : String) : Option IPValue :=
  if afi = "ipv4" then d.src_addr_ipv4
  else if afi = "ipv6" then d.src_addr_ipv6
  else Option.none

/- The module-level `commands` configuration object: a nested mapping
   platform to cmd_type to query_type to command template, traversed by
   `operator.attrgetter` in `device_commands`. -/
abbrev Catalog := List (String × List (String × List (String × String)))

def catalogLookup (commands : Catalog) (nos afi query_type : String) : Option String :=
  match commands.lookup nos with
  | Option.none => Option.none
  | some sub =>
    match sub.lookup afi with
    | Option.none => Option.none
    | some sub2 => sub2.lookup query_type

/- One constructor per failure site of construct.py, named as the
   specification names the failure condition:
   InvalidTargetError tags the ValueError raised by
   `ipaddress.ip_network`; UnknownVRFError the AttributeError of
   `getattr(device.vrfs, query_vrf)`; UnsupportedAddressFamilyError the
   AttributeError of `getattr(vrf, query_protocol)` (and of the afi
   lookup in the community/aspath paths); UnsupportedQueryError the
   AttributeError of `attrgetter(cmd_path)(commands)`;
   MissingSourceAttributeError the AttributeError of
   `getattr(device, src_afi)` inside `get_src`; TemplateFormatError the
   KeyError/ValueError of `str.format`. -/
inductive QueryError where
  | InvalidTargetError (target : String)
  | UnknownVRFError (vrf : String)
  | UnsupportedAddressFamilyError (protocol : String)
  | UnsupportedQueryError (nos afi query_type : String)
  | MissingSourceAttributeError (attr : String)
  | TemplateFormatError (template : String)
deriving DecidableEq

/- The Python value a builder returns: a list of command strings, a bare
   string, or None (bgp_aspath's initial value). -/
inductive PyValue where
  | list (items : List String)
  | str (s : String)
  | pyNone
deriving DecidableEq

deriving instance DecidableEq for Except

/- The validated query request handed to the constructor. -/
structure QueryData where
  query_target : String
  query_vrf : String
deriving DecidableEq

/- `Construct.get_src`: reads `getattr(device, "src_addr_" ++ afi)` and
   returns its `.exploded` canonical text form. -/
def get_src (device : Device) (afi : String) : Except QueryError String :=
  match device.srcAddrAttr afi with
  | Option.none => .error (.MissingSourceAttributeError ("src_addr_" ++ afi))
  | some src => .ok src.exploded

/- `Construct.device_commands`: `attrgetter(nos ++ "." ++ afi ++ "." ++
   query_type)(commands)`; a missing path is the AttributeError site the
   spec names UnsupportedQueryError, carrying the missing triple. -/
def device_commands (commands : Catalog) (nos afi query_type : String) : Except QueryError String :=
  match catalogLookup commands nos afi query_type with
  | some cmd => .ok cmd
  | Option.none => .error (.UnsupportedQueryError nos afi query_type)

/- `Construct.get_cmd_type`: `ipaddress.ip_network(query_target).version`
   then `"ipv{protocol}_vrf"` when `query_vrf` is truthy (non-empty) and
   not "default", else `"ipv{protocol}_default"`. -/
def get_cmd_type (query_target query_vrf : String) : Except QueryError String :=
  match ip_network_version query_target with
  | Option.none => .error (.InvalidTargetError query_target)
  | some protocol =>
    if query_vrf ≠ "" ∧ query_vrf ≠ "default" then
      .ok ("ipv" ++ toString protocol ++ "_vrf")
    else
      .ok ("ipv" ++ toString protocol ++ "_default")

/- The per-request constructor state set up by `Construct.__init__`. -/
structure Construct where
  device : Device
  query_target : String
  query_vrf : String
  transport : String
  cmd_type : String
deriving DecidableEq

/- `Construct.__init__`: stores the request fields and computes
   `cmd_type` via `get_cmd_type`, so an unparseable target already fails
   here, before any builder (and hence any catalog access) runs. -/
def Construct.init (device : Device) (query_data : QueryData) (transport : String) :
    Except QueryError Construct :=
  match get_cmd_type query_data.query_target query_data.query_vrf with
  | .error e => .error e
  | .ok ct =>
    .ok { device := device, query_target := query_data.query_target,
          query_vrf := query_data.query_vrf, transport := transport, cmd_type := ct }

/- Modelled from the spec: `query_afi` is referenced by the source's
   `bgp_community` (as an attribute, line 203) and `bgp_aspath` (as a
   two-argument method, line 248) but is defined nowhere under src/.
   Spec section 4.3 says bgp_aspath keys the catalog by "the resolved
   AFI label", section 4.1 defines that label as `"ipv" + version` of
   the query target, and section 9 directs that bgp_community perform
   the same single-protocol AFI resolution as bgp_route. The empty
   string stands for the (unreachable through `Construct.init`) case of
   an unparseable target. -/
def query_afi (query_target query_vrf : String) : String :=
  match ip_network_version query_target with
  | some protocol => "ipv" ++ toString protocol
  | Option.none => ""

/- `Construct.ping`: resolves the target's protocol, the VRF record and
   its AddressFamily sub-record, then emits either the JSON payload
   (rest) or the formatted catalog template (scrape), each appended to
   the initially empty `query` list; any other transport falls through
   both branches and returns that empty list. -/
def Construct.ping (c : Construct) (commands : Catalog) : Except QueryError PyValue :=
  match ip_network_version c.query_target with
  | Option.none => .error (.InvalidTargetError c.query_target)
  | some protocol =>
    match c.device.getVRF c.query_vrf with
    | Option.none => .error (.UnknownVRFError c.query_vrf)
    | some vrf =>
      match vrf.getAFI ("ipv" ++ toString protocol) with
      | Option.none => .error (.UnsupportedAddressFamilyError ("ipv" ++ toString protocol))
      | some afi =>
        if c.transport = "rest" then
          .ok (.list [json_dumps_payload "ping" afi.afi_name afi.vrf_name
                        afi.source_address c.query_target])
        else if c.transport = "scrape" then
          match device_commands commands c.device.commands c.cmd_type "ping" with
          | .error e => .error e
          | .ok cmd =>
            match formatTemplate cmd
                [("target", c.query_target), ("source", afi.source_address),
                 ("vrf", afi.vrf_name), ("afi", afi.afi_name)] with
            | Option.none => .error (.TemplateFormatError cmd)
            | some formatted => .ok (.list [formatted])
        else .ok (.list [])

/- `Construct.traceroute`: identical to ping up to the "traceroute"
   tag. -/
def Construct.traceroute (c : Construct) (commands : Catalog) : Except QueryError PyValue :=
  match ip_network_version c.query_target with
  | Option.none => .error (.InvalidTargetError c.query_target)
  | some protocol =>
    match c.device.getVRF c.query_vrf with
    | Option.none => .error (.UnknownVRFError c.query_vrf)
    | some vrf =>
      match vrf.getAFI ("ipv" ++ toString protocol) with
      | Option.none => .error (.UnsupportedAddressFamilyError ("ipv" ++ toString protocol))
      | some afi =>
        if c.transport = "rest" then
          .ok (.list [json_dumps_payload "traceroute" afi.afi_name afi.vrf_name
                        afi.source_address c.query_target])
        else if c.transport = "scrape" then
          match device_commands commands c.device.commands c.cmd_type "traceroute" with
          | .error e => .error e
          | .ok cmd =>
            match formatTemplate cmd
                [("target", c.query_target), ("source", afi.source_address),
                 ("vrf", afi.vrf_name), ("afi", afi.afi_name)] with
            | Option.none => .error (.TemplateFormatError cmd)
            | some formatted => .ok (.list [formatted])
        else .ok (.list [])

/- `Construct.bgp_route`: identical to ping up to the "bgp_route" tag. -/
def Construct.bgp_route (c : Construct) (commands : Catalog) : Except QueryError PyValue :=
  match ip_network_version c.query_target with
  | Option.none => .error (.InvalidTargetError c.query_target)
  | some protocol =>
    match c.device.getVRF c.query_vrf with
    | Option.none => .error (.UnknownVRFError c.query_vrf)
    | some vrf =>
      match vrf.getAFI ("ipv" ++ toString protocol) with
      | Option.none => .error (.UnsupportedAddressFamilyError ("ipv" ++ toString protocol))
      | some afi =>
        if c.transport = "rest" then
          .ok (.list [json_dumps_payload "bgp_route" afi.afi_name afi.vrf_name
                        afi.source_address c.query_target])
        else if c.transport = "scrape" then
          match device_commands commands c.device.commands c.cmd_type "bgp_route" with
          | .error e => .error e
          | .ok cmd =>
            match formatTemplate cmd
                [("target", c.query_target), ("source", afi.source_address),
                 ("vrf", afi.vrf_name), ("afi", afi.afi_name)] with
            | Option.none => .error (.TemplateFormatError cmd)
            | some formatted => .ok (.list [formatted])
        else .ok (.list [])

/- `Construct.bgp_community`: the source resolves the VRF record first
   (line 202) and then reads the AddressFamily attribute named by the
   (spec-modelled) `query_afi` (line 203); no target re-parsing happens
   inside this builder. The rest of the body matches ping up to the
   "bgp_community" tag. -/
def Construct.bgp_community (c : Construct) (commands : Catalog) : Except QueryError PyValue :=
  match c.device.getVRF c.query_vrf with
  | Option.none => .error (.UnknownVRFError c.query_vrf)
  | some vrf =>
    match vrf.getAFI (query_afi c.query_target c.query_vrf) with
    | Option.none => .error (.UnsupportedAddressFamilyError (query_afi c.query_target c.query_vrf))
    | some afi =>
      if c.transport = "rest" then
        .ok (.list [json_dumps_payload "bgp_community" afi.afi_name afi.vrf_name
                      afi.source_address c.query_target])
      else if c.transport = "scrape" then
        match device_commands commands c.device.commands c.cmd_type "bgp_community" with
        | .error e => .error e
        | .ok cmd =>
          match formatTemplate cmd
              [("target", c.query_target), ("source", afi.source_address),
               ("vrf", afi.vrf_name), ("afi", afi.afi_name)] with
          | Option.none => .error (.TemplateFormatError cmd)
          | some formatted => .ok (.list [formatted])
      else .ok (.list [])

/- `Construct.bgp_aspath`: starts from `query = None`, resolves the AFI
   label via the (spec-modelled) `query_afi` and the source address via
   `get_src`, then assigns a bare string (never a list): the JSON
   payload (rest) or the formatted template looked up with the AFI
   label — not `cmd_type` — as the catalog's second-level key (scrape);
   the format call passes only target, source and vrf. Any other
   transport leaves `query = None`. -/
def Construct.bgp_aspath (c : Construct) (commands : Catalog) : Except QueryError PyValue :=
  match get_src c.device (query_afi c.query_target c.query_vrf) with
  | .error e => .error e
  | .ok source =>
    if c.transport = "rest" then
      .ok (.str (json_dumps_payload "bgp_aspath" (query_afi c.query_target c.query_vrf)
                   c.query_vrf source c.query_target))
    else if c.transport = "scrape" then
      match device_commands commands c.device.commands
          (query_afi c.query_target c.query_vrf) "bgp_aspath" with
      | .error e => .error e
      | .ok cmd =>
        match formatTemplate cmd
            [("target", c.query_target), ("source", source), ("vrf", c.query_vrf)] with
        | Option.none => .error (.TemplateFormatError cmd)
        | some formatted => .ok (.str formatted)
    else .ok .pyNone

/- Full pipeline for one request: `Construct(...)` then the named
   builder method. -/
def construct_ping (device : Device) (query_data : QueryData) (transport : String)
    (commands : Catalog) : Except QueryError PyValue :=
  match Construct.init device query_data transport with
  | .error e => .error e
  | .ok c => c.ping commands

def construct_traceroute (device : Device) (query_data : QueryData) (transport : String)
    (commands : Catalog) : Except QueryError PyValue :=
  match Construct.init device query_data transport with
  | .error e => .error e
  | .ok c => c.traceroute commands

def construct_bgp_route (device : Device) (query_data : QueryData) (transport : String)
    (commands : Catalog) : Except QueryError PyValue :=
  match Construct.init device query_data transport with
  | .error e => .error e
  | .ok c => c.bgp_route commands

def construct_bgp_community (device : Device) (query_data : QueryData) (transport : String)
    (commands : Catalog) : Except QueryError PyValue :=
  match Construct.init device query_data transport with
  | .error e => .error e
  | .ok c => c.bgp_community commands

def construct_bgp_aspath (device : Device) (query_data : QueryData) (transport : String)
    (commands : Catalog) : Except QueryError PyValue :=
  match Construct.init device query_data transport with
  | .error e => .error e
  | .ok c => c.bgp_aspath commands

/- Spec-side definition for the refinement claim that the four
   non-aspath builders differ only in the literal query-type tag
   (spec section 4.3): the common builder body with the tag as data,
   used both as the payload's query_type value and as the catalog's
   third-level key. -/
def generic_query (tag : String) (c : Construct) (commands : Catalog) :
    Except QueryError PyValue :=
  match ip_network_version c.query_target with
  | Option.none => .error (.InvalidTargetError c.query_target)
  | some protocol =>
    match c.device.getVRF c.query_vrf with
    | Option.none => .error (.UnknownVRFError c.query_vrf)
    | some vrf =>
      match vrf.getAFI ("ipv" ++ toString protocol) with
      | Option.none => .error (.UnsupportedAddressFamilyError ("ipv" ++ toString protocol))
      | some afi =>
        if c.transport = "rest" then
          .ok (.list [json_dumps_payload tag afi.afi_name afi.vrf_name
                        afi.source_address c.query_target])
        else if c.transport = "scrape" then
          match device_commands commands c.device.commands c.cmd_type tag with
          | .error e => .error e
          | .ok cmd =>
            match formatTemplate cmd
                [("target", c.query_target), ("source", afi.source_address),
                 ("vrf", afi.vrf_name), ("afi", afi.afi_name)] with
            | Option.none => .error (.TemplateFormatError cmd)
            | some formatted => .ok (.list [formatted])
        else .ok (.list [])

/- Concrete fixtures used by the scenario theorem, the counterexamples
   and the witnesses. -/

def afi4Default : AFIRecord :=
  { afi_name := "ipv4", vrf_name := "default", source_address := "203.0.113.1" }

def vrfDefault : VRFRecord :=
  { ipv4 := some afi4Default, ipv6 := Option.none }

def devA : Device :=
  { commands := "cisco_ios",
    vrfs := [("default", vrfDefault)],
    src_addr_ipv4 := some (.v4 203 0 113 1),
    src_addr_ipv6 := Option.none }

def qdA : QueryData := { query_target := "192.0.2.1", query_vrf := "default" }

def catA : Catalog :=
  [("cisco_ios",
    [("ipv4_default",
      [("ping", "ping {target} source {source}"),
       ("traceroute", "traceroute {target} source {source}"),
       ("bgp_route", "show bgp {afi} unicast {target}"),
       ("bgp_community", "show bgp {afi} unicast community {target}")]),
     ("ipv4",
      [("bgp_aspath", "show bgp regexp {target}")])])]

/- A fully initialised constructor for the fixture request, with the
   transport left as a parameter. -/
def cA (transport : String) : Construct :=
  { device := devA, query_target := "192.0.2.1", query_vrf := "default",
    transport := transport, cmd_type := "ipv4_default" }

/- Discriminator: did the run succeed with a one-element Python list? -/
def isOneCommandList : Except QueryError PyValue → Bool :=
  fun r =>
    match r with
    | .ok (.list [_]) => true
    | _ => false

/- Discriminator: did the run succeed with a bare Python string? -/
def isBareString : Except QueryError PyValue → Bool :=
  fun r =>
    match r with
    | .ok (.str _) => true
    | _ => false

/- Fixture for the C10 witness: the AFI record's source_address is
   stored in a deliberately non-canonical spelling, while the device's
   src_addr_ipv4 attribute holds the address value whose exploded form
   is "10.0.0.1". -/
def afiC : AFIRecord :=
  { afi_name := "ipv4", vrf_name := "default", source_address := "203.000.113.001" }

def devC : Device :=
  { commands := "cisco_ios",
    vrfs := [("default", { ipv4 := some afiC, ipv6 := Option.none })],
    src_addr_ipv4 := some (.v4 10 0 0 1),
    src_addr_ipv6 := Option.none }

def cC (transport : String) : Construct :=
  { device := devC, query_target := "192.0.2.1", query_vrf := "default",
    transport := transport, cmd_type := "ipv4_default" }

def catC : Catalog := [("cisco_ios", [("ipv4", [("bgp_aspath", "{source}")])])]

/- Fixture in the shape of the spec's Scenario 3: an IPv6 target inside
   the customer VRF "CUSTOMER-A", whose resolved cmd_type is
   "ipv6_vrf" — a sub-tree the fixture catalog does not contain. -/

def afiB : AFIRecord :=
  { afi_name := "ipv6", vrf_name := "CUSTOMER-A", source_address := "2001:db8::ff" }

def vrfB : VRFRecord :=
  { ipv4 := Option.none, ipv6 := some afiB }

def devB : Device :=
  { commands := "cisco_ios",
    vrfs := [("CUSTOMER-A", vrfB)],
    src_addr_ipv4 := Option.none,
    src_addr_ipv6 := some (.v6 [8193, 3512, 0, 0, 0, 0, 0, 255]) }

def cB : Construct :=
  { device := devB, query_target := "2001:db8::1", query_vrf := "CUSTOMER-A",
    transport := "scrape", cmd_type := "ipv6_vrf" }

/- A small string fact used when a formatted template ends in a
   placeholder. -/
theorem string_append_empty (s : String) : s ++ "" = s := by
  cases s
  show String.mk _ = String.mk _
  simp [String.append]

/-- C1: for every query_target that parses as an IP address/network with
version v and every query_vrf string, get_cmd_type returns "ipv{v}_vrf"
when query_vrf is non-empty and not equal to "default", and returns
"ipv{v}_default" otherwise, including when query_vrf is empty. -/
theorem C1_get_cmd_type (query_target query_vrf : String) (v : Nat)
    (hv : ip_network_version query_target = some v) :
    (query_vrf ≠ "" ∧ query_vrf ≠ "default" →
      get_cmd_type query_target query_vrf = .ok ("ipv" ++ toString v ++ "_vrf")) ∧
    ((query_vrf = "" ∨ query_vrf = "default") →
      get_cmd_type query_target query_vrf = .ok ("ipv" ++ toString v ++ "_default")) := by
  unfold get_cmd_type
  simp only [hv]
  constructor
  · intro h
    rw [if_pos h]
  · intro h
    rw [if_neg (by rcases h with h | h <;> simp [h])]

/-- Witness for C1 at concrete inputs: a customer VRF yields the _vrf
suffix for an IPv4 target, and the empty and "default" VRF names both
yield the _default suffix (IPv6 target shown for the empty case). -/
theorem C1_witness :
    get_cmd_type "192.0.2.1" "CUSTOMER-A" = .ok "ipv4_vrf" ∧
    get_cmd_type "2001:db8::1" "" = .ok "ipv6_default" ∧
    get_cmd_type "192.0.2.1" "default" = .ok "ipv4_default" := by
  refine ⟨?_, ?_, ?_⟩
  · exact (C1_get_cmd_type "192.0.2.1" "CUSTOMER-A" 4 (by decide)).1 (by decide)
  · exact (C1_get_cmd_type "2001:db8::1" "" 6 (by decide)).2 (Or.inl rfl)
  · exact (C1_get_cmd_type "192.0.2.1" "default" 4 (by decide)).2 (Or.inr rfl)

/-- C9: Scenario 1 of the spec, verbatim: target "192.0.2.1", vrf
"default", query type ping, transport "scrape", catalog entry at
(platform, "ipv4_default", "ping") equal to "ping " followed by the
target placeholder, " source " and the source placeholder, default-VRF
IPv4 AFI source_address "203.0.113.1"; the ping builder returns exactly
the single-element sequence ["ping 192.0.2.1 source 203.0.113.1"]. -/
theorem C9_scenario1 :
    construct_ping devA qdA "scrape" catA
      = .ok (.list ["ping 192.0.2.1 source 203.0.113.1"]) := by decide

/-- C8: for every query_target string that is not a parseable IP
address/network, query construction fails with InvalidTargetError; the
failure is raised already by Construct.init (the resolver
initialisation), and the composed pipeline returns that same error for
every catalog, so no catalog access can have taken place. -/
theorem C8_invalid_target (device : Device) (qd : QueryData) (transport : String)
    (h : ip_network_version qd.query_target = Option.none) :
    Construct.init device qd transport = .error (.InvalidTargetError qd.query_target) ∧
    ∀ commands : Catalog,
      construct_ping device qd transport commands
        = .error (.InvalidTargetError qd.query_target) := by
  have h1 : Construct.init device qd transport
      = .error (.InvalidTargetError qd.query_target) := by
    unfold Construct.init get_cmd_type
    simp only [h]
  refine ⟨h1, fun commands => ?_⟩
  unfold construct_ping
  simp only [h1]

/-- Witness for C8 at the spec's Scenario 5 input: the malformed target
"not-an-ip" makes initialisation, and the whole ping pipeline over the
fixture catalog, fail with InvalidTargetError. -/
theorem C8_witness :
    Construct.init devA { query_target := "not-an-ip", query_vrf := "default" } "scrape"
      = .error (.InvalidTargetError "not-an-ip") ∧
    construct_ping devA { query_target := "not-an-ip", query_vrf := "default" } "scrape" catA
      = .error (.InvalidTargetError "not-an-ip") := by
  have h := C8_invalid_target devA
    { query_target := "not-an-ip", query_vrf := "default" } "scrape" (by decide)
  exact ⟨h.1, h.2 catA⟩

/-- C7: with a parseable target, an unknown VRF name makes the ping
builder fail with UnknownVRFError, and the result is the same for every
catalog (so no command-template lookup into the catalog was attempted);
when the VRF exists but has no AddressFamily record for the target's IP
version, the builder fails with UnsupportedAddressFamilyError. -/
theorem C7_vrf_errors (c : Construct) (v : Nat)
    (hv : ip_network_version c.query_target = some v) :
    (Device.getVRF c.device c.query_vrf = Option.none →
      ∀ commands : Catalog, c.ping commands = .error (.UnknownVRFError c.query_vrf)) ∧
    (∀ vrf : VRFRecord, Device.getVRF c.device c.query_vrf = some vrf →
      vrf.getAFI ("ipv" ++ toString v) = Option.none →
      ∀ commands : Catalog,
        c.ping commands = .error (.UnsupportedAddressFamilyError ("ipv" ++ toString v))) := by
  constructor
  · intro hvrf commands
    unfold Construct.ping
    simp only [hv, hvrf]
  · intro vrf hvrf hafi commands
    unfold Construct.ping
    simp only [hv, hvrf, hafi]

/-- Witness for C7 at concrete inputs: the fixture device has no VRF
named "CUSTOMER-A", and its "default" VRF has no IPv6 AddressFamily
record for the IPv6 target. -/
theorem C7_witness :
    Construct.ping
      { device := devA, query_target := "192.0.2.1", query_vrf := "CUSTOMER-A",
        transport := "scrape", cmd_type := "ipv4_vrf" } catA
      = .error (.UnknownVRFError "CUSTOMER-A") ∧
    Construct.ping
      { device := devA, query_target := "2001:db8::1", query_vrf := "default",
        transport := "scrape", cmd_type := "ipv6_default" } catA
      = .error (.UnsupportedAddressFamilyError "ipv6") := by
  constructor
  · exact (C7_vrf_errors
      { device := devA, query_target := "192.0.2.1", query_vrf := "CUSTOMER-A",
        transport := "scrape", cmd_type := "ipv4_vrf" } 4 (by decide)).1 (by decide) catA
  · exact (C7_vrf_errors
      { device := devA, query_target := "2001:db8::1", query_vrf := "default",
        transport := "scrape", cmd_type := "ipv6_default" } 6 (by decide)).2
      vrfDefault (by decide) (by decide) catA

/-- C6: for every (platform, cmd_type, query_type) triple with no
matching catalog entry, template resolution via device_commands fails
with UnsupportedQueryError carrying exactly that triple; and each of
the five scrape-mode builders surfaces that error for its own
query-type key — ping, traceroute, bgp_route and bgp_community at
(platform, cmd_type, builder tag), bgp_aspath at
(platform, AFI label, "bgp_aspath") — rather than falling back to any
default template or returning an empty command. -/
theorem C6_missing_template (c : Construct) (commands : Catalog)
    (htr : c.transport = "scrape") (v : Nat)
    (hv : ip_network_version c.query_target = some v)
    (vrf : VRFRecord) (hvrf : Device.getVRF c.device c.query_vrf = some vrf)
    (afi : AFIRecord) (hafi : vrf.getAFI ("ipv" ++ toString v) = some afi)
    (ip : IPValue)
    (hsrc : Device.srcAddrAttr c.device ("ipv" ++ toString v) = some ip) :
    (∀ nos cmdType query_type : String,
      catalogLookup commands nos cmdType query_type = Option.none →
      device_commands commands nos cmdType query_type
        = .error (.UnsupportedQueryError nos cmdType query_type)) ∧
    (catalogLookup commands c.device.commands c.cmd_type "ping" = Option.none →
      c.ping commands
        = .error (.UnsupportedQueryError c.device.commands c.cmd_type "ping")) ∧
    (catalogLookup commands c.device.commands c.cmd_type "traceroute" = Option.none →
      c.traceroute commands
        = .error (.UnsupportedQueryError c.device.commands c.cmd_type "traceroute")) ∧
    (catalogLookup commands c.device.commands c.cmd_type "bgp_route" = Option.none →
      c.bgp_route commands
        = .error (.UnsupportedQueryError c.device.commands c.cmd_type "bgp_route")) ∧
    (catalogLookup commands c.device.commands c.cmd_type "bgp_community" = Option.none →
      c.bgp_community commands
        = .error (.UnsupportedQueryError c.device.commands c.cmd_type "bgp_community")) ∧
    (catalogLookup commands c.device.commands ("ipv" ++ toString v) "bgp_aspath"
        = Option.none →
      c.bgp_aspath commands
        = .error (.UnsupportedQueryError c.device.commands ("ipv" ++ toString v)
            "bgp_aspath")) := by
  have hdc : ∀ nos cmdType query_type : String,
      catalogLookup commands nos cmdType query_type = Option.none →
      device_commands commands nos cmdType query_type
        = .error (.UnsupportedQueryError nos cmdType query_type) := by
    intro nos cmdType query_type hmiss
    unfold device_commands
    simp only [hmiss]
  refine ⟨hdc, ?_, ?_, ?_, ?_, ?_⟩
  · intro hmiss
    have h1 := hdc c.device.commands c.cmd_type "ping" hmiss
    unfold Construct.ping
    simp only [hv, hvrf, hafi, htr, h1]
    all_goals repeat' split
    all_goals simp_all
  · intro hmiss
    have h1 := hdc c.device.commands c.cmd_type "traceroute" hmiss
    unfold Construct.traceroute
    simp only [hv, hvrf, hafi, htr, h1]
    all_goals repeat' split
    all_goals simp_all
  · intro hmiss
    have h1 := hdc c.device.commands c.cmd_type "bgp_route" hmiss
    unfold Construct.bgp_route
    simp only [hv, hvrf, hafi, htr, h1]
    all_goals repeat' split
    all_goals simp_all
  · intro hmiss
    have h1 := hdc c.device.commands c.cmd_type "bgp_community" hmiss
    unfold Construct.bgp_community query_afi
    simp only [hv, hvrf, hafi, htr, h1]
    all_goals repeat' split
    all_goals simp_all
  · intro hmiss
    have h1 := hdc c.device.commands ("ipv" ++ toString v) "bgp_aspath" hmiss
    have hgs : get_src c.device ("ipv" ++ toString v) = .ok ip.exploded := by
      unfold get_src
      simp only [hsrc]
    unfold Construct.bgp_aspath query_afi
    simp only [hv, hgs, htr, h1]
    all_goals repeat' split
    all_goals simp_all

/-- Witness for C6 at the spec's Scenario 3 shape: the fixture catalog
has no (cisco_ios, ipv6_vrf, traceroute) entry, so resolution and the
scrape traceroute builder both fail with UnsupportedQueryError naming
that triple; likewise for the ping and bgp_community keys under
ipv6_vrf and for bgp_aspath's (cisco_ios, ipv6, bgp_aspath) key. -/
theorem C6_witness :
    device_commands catA "cisco_ios" "ipv6_vrf" "traceroute"
      = .error (.UnsupportedQueryError "cisco_ios" "ipv6_vrf" "traceroute") ∧
    Construct.traceroute cB catA
      = .error (.UnsupportedQueryError "cisco_ios" "ipv6_vrf" "traceroute") ∧
    Construct.ping cB catA
      = .error (.UnsupportedQueryError "cisco_ios" "ipv6_vrf" "ping") ∧
    Construct.bgp_community cB catA
      = .error (.UnsupportedQueryError "cisco_ios" "ipv6_vrf" "bgp_community") ∧
    Construct.bgp_aspath cB catA
      = .error (.UnsupportedQueryError "cisco_ios" "ipv6" "bgp_aspath") := by
  have h := C6_missing_template cB catA rfl 6 (by decide) vrfB (by decide)
    afiB (by decide) (.v6 [8193, 3512, 0, 0, 0, 0, 0, 255]) (by decide)
  exact ⟨h.1 "cisco_ios" "ipv6_vrf" "traceroute" (by decide),
    h.2.2.1 (by decide), h.2.1 (by decide), h.2.2.2.2.1 (by decide),
    h.2.2.2.2.2 (by decide)⟩

/-- C2 counterexample: on the fixture request with transport "scrape",
the bgp_aspath builder succeeds with the bare command string
"show bgp regexp 192.0.2.1" — not a sequence (list) containing one
command string, refuting the claim for the bgp_aspath query kind. -/
theorem C2_counterexample :
    construct_bgp_aspath devA qdA "scrape" catA
      = .ok (.str "show bgp regexp 192.0.2.1") ∧
    isOneCommandList (construct_bgp_aspath devA qdA "scrape" catA) = false := by
  decide

/-- C2 amended: when transport is "scrape", the builders ping,
traceroute, bgp_route and bgp_community return, whenever they return
normally, a list containing exactly one command string; bgp_aspath
instead returns the bare command string. -/
theorem C2_scrape_shapes (c : Construct) (commands : Catalog)
    (htr : c.transport = "scrape") :
    (∀ out, c.ping commands = .ok out → ∃ s, out = .list [s]) ∧
    (∀ out, c.traceroute commands = .ok out → ∃ s, out = .list [s]) ∧
    (∀ out, c.bgp_route commands = .ok out → ∃ s, out = .list [s]) ∧
    (∀ out, c.bgp_community commands = .ok out → ∃ s, out = .list [s]) ∧
    (∀ out, c.bgp_aspath commands = .ok out → ∃ s, out = .str s) := by
  refine ⟨?_, ?_, ?_, ?_, ?_⟩ <;> intro out h
  · unfold Construct.ping at h
    repeat' split at h
    all_goals try contradiction
    all_goals try (exact absurd htr (by assumption))
    all_goals try (injection h with h2; exact ⟨_, h2.symm⟩)
    all_goals simp_all
  · unfold Construct.traceroute at h
    repeat' split at h
    all_goals try contradiction
    all_goals try (exact absurd htr (by assumption))
    all_goals try (injection h with h2; exact ⟨_, h2.symm⟩)
    all_goals simp_all
  · unfold Construct.bgp_route at h
    repeat' split at h
    all_goals try contradiction
    all_goals try (exact absurd htr (by assumption))
    all_goals try (injection h with h2; exact ⟨_, h2.symm⟩)
    all_goals simp_all
  · unfold Construct.bgp_community at h
    repeat' split at h
    all_goals try contradiction
    all_goals try (exact absurd htr (by assumption))
    all_goals try (injection h with h2; exact ⟨_, h2.symm⟩)
    all_goals simp_all
  · unfold Construct.bgp_aspath at h
    repeat' split at h
    all_goals try contradiction
    all_goals try (exact absurd htr (by assumption))
    all_goals try (injection h with h2; exact ⟨_, h2.symm⟩)
    all_goals simp_all

/-- Witness for C2 (amended) at the fixture request: ping's scrape
output really is a one-element list and bgp_aspath's really is a bare
string. -/
theorem C2_witness :
    (∃ s, PyValue.list ["ping 192.0.2.1 source 203.0.113.1"] = PyValue.list [s]) ∧
    (∃ s, PyValue.str "show bgp regexp 192.0.2.1" = PyValue.str s) := by
  constructor
  · exact (C2_scrape_shapes (cA "scrape") catA rfl).1 _ (by decide)
  · exact (C2_scrape_shapes (cA "scrape") catA rfl).2.2.2.2 _ (by decide)

/-- C3 counterexample: with the unsupported transport value "telnet" the
ping builder returns the normal empty list and bgp_aspath returns None —
no UnsupportedTransportError (no error at all) is raised, refuting the
claim. -/
theorem C3_counterexample :
    construct_ping devA qdA "telnet" catA = .ok (.list []) ∧
    construct_bgp_aspath devA qdA "telnet" catA = .ok .pyNone := by decide

/-- C3 amended: for a transport value that is neither "rest" nor
"scrape", once the request resolves (parseable target, known VRF,
supported address family, present source attribute) the builders fall
through both transport branches and return their untouched initial
value: the empty list for ping, traceroute, bgp_route and
bgp_community, and None for bgp_aspath; no error is raised. -/
theorem C3_unknown_transport (c : Construct) (commands : Catalog)
    (h1 : c.transport ≠ "rest") (h2 : c.transport ≠ "scrape")
    (v : Nat) (hv : ip_network_version c.query_target = some v)
    (vrf : VRFRecord) (hvrf : Device.getVRF c.device c.query_vrf = some vrf)
    (afi : AFIRecord) (hafi : vrf.getAFI ("ipv" ++ toString v) = some afi)
    (ip : IPValue) (hsrc : Device.srcAddrAttr c.device ("ipv" ++ toString v) = some ip) :
    c.ping commands = .ok (.list []) ∧
    c.traceroute commands = .ok (.list []) ∧
    c.bgp_route commands = .ok (.list []) ∧
    c.bgp_community commands = .ok (.list []) ∧
    c.bgp_aspath commands = .ok .pyNone := by
  refine ⟨?_, ?_, ?_, ?_, ?_⟩
  · unfold Construct.ping
    simp only [hv, hvrf, hafi]
    rw [if_neg h1, if_neg h2]
  · unfold Construct.traceroute
    simp only [hv, hvrf, hafi]
    rw [if_neg h1, if_neg h2]
  · unfold Construct.bgp_route
    simp only [hv, hvrf, hafi]
    rw [if_neg h1, if_neg h2]
  · unfold Construct.bgp_community
    simp only [query_afi, hv, hvrf, hafi]
    rw [if_neg h1, if_neg h2]
  · unfold Construct.bgp_aspath get_src
    simp only [query_afi, hv, hsrc]
    rw [if_neg h1, if_neg h2]

/-- Witness for C3 (amended) at the fixture request with transport
"telnet". -/
theorem C3_witness :
    Construct.ping (cA "telnet") catA = .ok (.list []) ∧
    Construct.bgp_aspath (cA "telnet") catA = .ok .pyNone := by
  have h := C3_unknown_transport (cA "telnet") catA (by decide) (by decide)
    4 (by decide) vrfDefault (by decide) afi4Default (by decide)
    (.v4 203 0 113 1) (by decide)
  exact ⟨h.1, h.2.2.2.2⟩

/-- C5 counterexample: on the fixture request with transport "rest", the
ping builder succeeds with a one-element list wrapping the JSON payload
string — the output is not a single (bare) string, refuting the claim
for ping (the same holds for traceroute, bgp_route and bgp_community;
only bgp_aspath returns the bare JSON string). -/
theorem C5_counterexample :
    construct_ping devA qdA "rest" catA
      = .ok (.list [json_dumps_payload "ping" "ipv4" "default" "203.0.113.1" "192.0.2.1"]) ∧
    isBareString (construct_ping devA qdA "rest" catA) = false := by decide

/-- C5 amended: when transport is "rest", every builder emits exactly
one JSON object string whose keys are exactly query_type, afi, vrf,
source, target, in that fixed (hence stable) order, all string-valued,
and with query_type equal to the builder's literal tag and target equal
to the query target; ping, traceroute, bgp_route and bgp_community
return it wrapped in a single-element list, while bgp_aspath returns it
as a bare string (with the VRF field being the raw query_vrf). -/
theorem C5_rest_shapes (c : Construct) (commands : Catalog)
    (htr : c.transport = "rest") :
    (∀ out, c.ping commands = .ok out →
      ∃ a b s, out = .list [json_dumps_payload "ping" a b s c.query_target]) ∧
    (∀ out, c.traceroute commands = .ok out →
      ∃ a b s, out = .list [json_dumps_payload "traceroute" a b s c.query_target]) ∧
    (∀ out, c.bgp_route commands = .ok out →
      ∃ a b s, out = .list [json_dumps_payload "bgp_route" a b s c.query_target]) ∧
    (∀ out, c.bgp_community commands = .ok out →
      ∃ a b s, out = .list [json_dumps_payload "bgp_community" a b s c.query_target]) ∧
    (∀ out, c.bgp_aspath commands = .ok out →
      ∃ a s, out = .str (json_dumps_payload "bgp_aspath" a c.query_vrf s c.query_target)) := by
  refine ⟨?_, ?_, ?_, ?_, ?_⟩ <;> intro out h
  · unfold Construct.ping at h
    repeat' split at h
    all_goals try contradiction
    all_goals try (exact absurd htr (by assumption))
    all_goals try (injection h with h2; exact ⟨_, _, _, h2.symm⟩)
    all_goals simp_all
  · unfold Construct.traceroute at h
    repeat' split at h
    all_goals try contradiction
    all_goals try (exact absurd htr (by assumption))
    all_goals try (injection h with h2; exact ⟨_, _, _, h2.symm⟩)
    all_goals simp_all
  · unfold Construct.bgp_route at h
    repeat' split at h
    all_goals try contradiction
    all_goals try (exact absurd htr (by assumption))
    all_goals try (injection h with h2; exact ⟨_, _, _, h2.symm⟩)
    all_goals simp_all
  · unfold Construct.bgp_community at h
    repeat' split at h
    all_goals try contradiction
    all_goals try (exact absurd htr (by assumption))
    all_goals try (injection h with h2; exact ⟨_, _, _, h2.symm⟩)
    all_goals simp_all
  · unfold Construct.bgp_aspath at h
    repeat' split at h
    all_goals try contradiction
    all_goals try (exact absurd htr (by assumption))
    all_goals try (injection h with h2; exact ⟨_, _, h2.symm⟩)
    all_goals simp_all

/-- Witness for C5 (amended) at the fixture request with transport
"rest": the payload really carries ping's tag with the resolved AFI
fields, and bgp_aspath's bare payload carries its tag with the AFI
label and raw query_vrf. -/
theorem C5_witness :
    (∃ a b s, PyValue.list [json_dumps_payload "ping" "ipv4" "default" "203.0.113.1" "192.0.2.1"]
      = .list [json_dumps_payload "ping" a b s "192.0.2.1"]) ∧
    (∃ a s, PyValue.str (json_dumps_payload "bgp_aspath" "ipv4" "default" "203.0.113.1" "192.0.2.1")
      = .str (json_dumps_payload "bgp_aspath" a "default" s "192.0.2.1")) := by
  constructor
  · exact (C5_rest_shapes (cA "rest") catA rfl).1 _ (by decide)
  · exact (C5_rest_shapes (cA "rest") catA rfl).2.2.2.2 _ (by decide)

/-- C4: on any resolvable request, the builders ping, traceroute,
bgp_route and bgp_community coincide with the common spec-side builder
`generic_query` applied to their literal query_type tag (the tag is used
exactly twice: in the rest payload and as the catalog's third-level
key), so they are identical up to that tag; bgp_aspath alone follows a
different resolution path: its output never depends on the VRF-derived
cmd_type (replacing cmd_type changes nothing), and its scrape command
can only come from a catalog entry whose second-level key is the
resolved AFI label "ipv{v}". -/
theorem C4_uniformity (c : Construct) (commands : Catalog) (v : Nat)
    (hv : ip_network_version c.query_target = some v) :
    c.ping commands = generic_query "ping" c commands ∧
    c.traceroute commands = generic_query "traceroute" c commands ∧
    c.bgp_route commands = generic_query "bgp_route" c commands ∧
    c.bgp_community commands = generic_query "bgp_community" c commands ∧
    (∀ ct : String, c.bgp_aspath commands
        = Construct.bgp_aspath { c with cmd_type := ct } commands) ∧
    (c.transport = "scrape" → ∀ out, c.bgp_aspath commands = .ok out →
      (catalogLookup commands c.device.commands ("ipv" ++ toString v) "bgp_aspath").isSome
        = true) := by
  refine ⟨rfl, rfl, rfl, ?_, fun ct => rfl, ?_⟩
  · unfold Construct.bgp_community generic_query query_afi
    simp only [hv]
  · intro htr out h
    unfold Construct.bgp_aspath query_afi at h
    simp only [hv] at h
    cases hsrc : get_src c.device ("ipv" ++ toString v) with
    | error e => rw [hsrc] at h; exact Except.noConfusion h
    | ok source =>
      simp only [hsrc] at h
      rw [htr] at h
      rw [if_neg (by decide)] at h
      rw [if_pos rfl] at h
      cases hcmd : device_commands commands c.device.commands
          ("ipv" ++ toString v) "bgp_aspath" with
      | error e => rw [hcmd] at h; exact Except.noConfusion h
      | ok cmd =>
        unfold device_commands at hcmd
        cases hcat : catalogLookup commands c.device.commands
            ("ipv" ++ toString v) "bgp_aspath" with
        | none => rw [hcat] at hcmd; exact Except.noConfusion hcmd
        | some t => rfl

/-- Witness for C4 at the fixture scrape request: ping and
bgp_community coincide with the generic builder at their tags,
bgp_aspath ignores cmd_type (here replaced by a junk value), and its
successful scrape run implies the catalog has the
(platform, "ipv4", "bgp_aspath") entry. -/
theorem C4_witness :
    Construct.ping (cA "scrape") catA = generic_query "ping" (cA "scrape") catA ∧
    Construct.bgp_community (cA "scrape") catA
      = generic_query "bgp_community" (cA "scrape") catA ∧
    Construct.bgp_aspath (cA "scrape") catA
      = Construct.bgp_aspath { cA "scrape" with cmd_type := "unused-key" } catA ∧
    (catalogLookup catA "cisco_ios" "ipv4" "bgp_aspath").isSome = true := by
  have h := C4_uniformity (cA "scrape") catA 4 (by decide)
  exact ⟨h.1, h.2.2.2.1, h.2.2.2.2.1 "unused-key",
    h.2.2.2.2.2 rfl (.str "show bgp regexp 192.0.2.1") (by decide)⟩

/-- C10: in the bgp_aspath builder the "source" value placed in the
output is `get_src`'s result, the exploded (fully expanded canonical)
string form of the device attribute src_addr_{afi} for the resolved AFI
label — shown for the rest payload and, via the template consisting of
just the source placeholder, for the formatted scrape command — whereas
the ping builder (like the other non-aspath builders) places the AFI
record's source_address field in its output exactly as stored, with no
normalisation. -/
theorem C10_aspath_source (c : Construct) (commands : Catalog) (v : Nat)
    (hv : ip_network_version c.query_target = some v)
    (ip : IPValue)
    (hsrc : Device.srcAddrAttr c.device ("ipv" ++ toString v) = some ip) :
    get_src c.device ("ipv" ++ toString v) = .ok ip.exploded ∧
    (c.transport = "rest" →
      c.bgp_aspath commands
        = .ok (.str (json_dumps_payload "bgp_aspath" ("ipv" ++ toString v)
            c.query_vrf ip.exploded c.query_target))) ∧
    (c.transport = "scrape" →
      catalogLookup commands c.device.commands ("ipv" ++ toString v) "bgp_aspath"
        = some "{source}" →
      c.bgp_aspath commands = .ok (.str ip.exploded)) ∧
    (∀ vrf afi, Device.getVRF c.device c.query_vrf = some vrf →
      vrf.getAFI ("ipv" ++ toString v) = some afi → c.transport = "rest" →
      c.ping commands
        = .ok (.list [json_dumps_payload "ping" afi.afi_name afi.vrf_name
            afi.source_address c.query_target])) := by
  have hgs : get_src c.device ("ipv" ++ toString v) = .ok ip.exploded := by
    unfold get_src
    simp only [hsrc]
  refine ⟨hgs, ?_, ?_, ?_⟩
  · intro htr
    unfold Construct.bgp_aspath query_afi
    simp only [hv, hgs, htr]
    repeat' split
    all_goals simp_all
  · intro htr hcat
    have hdc : device_commands commands c.device.commands ("ipv" ++ toString v) "bgp_aspath"
        = .ok "{source}" := by
      unfold device_commands
      simp only [hcat]
    have hft : formatTemplate "{source}"
        [("target", c.query_target), ("source", ip.exploded), ("vrf", c.query_vrf)]
        = some (ip.exploded ++ "") := rfl
    unfold Construct.bgp_aspath query_afi
    simp only [hv, hgs, htr, hdc, hft]
    repeat' split
    all_goals simp_all [string_append_empty]
  · intro vrf afi hvrf hafi htr
    unfold Construct.ping
    simp only [hv, hvrf, hafi, htr]
    repeat' split
    all_goals simp_all

/-- Witness for C10: on the contrast fixture, bgp_aspath's rest payload
and scrape command carry the exploded device attribute "10.0.0.1",
while ping's rest payload carries the stored string "203.000.113.001"
verbatim. -/
theorem C10_witness :
    get_src devC "ipv4" = .ok "10.0.0.1" ∧
    Construct.bgp_aspath (cC "rest") catC
      = .ok (.str (json_dumps_payload "bgp_aspath" "ipv4" "default"
          "10.0.0.1" "192.0.2.1")) ∧
    Construct.bgp_aspath (cC "scrape") catC = .ok (.str "10.0.0.1") ∧
    Construct.ping (cC "rest") catC
      = .ok (.list [json_dumps_payload "ping" "ipv4" "default"
          "203.000.113.001" "192.0.2.1"]) := by
  have hr := C10_aspath_source (cC "rest") catC 4 (by decide) (.v4 10 0 0 1) (by decide)
  have hs := C10_aspath_source (cC "scrape") catC 4 (by decide) (.v4 10 0 0 1) (by decide)
  exact ⟨hr.1, hr.2.1 rfl, hs.2.2.1 rfl (by decide),
    hr.2.2.2 { ipv4 := some afiC, ipv6 := Option.none } afiC (by decide) (by decide) rfl⟩
